import Mathlib

/-!
Shallow embedding of `src/app.py`, a Slack webhook adapter for a
Vercel/AWS-Lambda runtime.

The file models two functions of the source:

* `handler(event, context)` (src/app.py lines 65-105): the entry point.
  It extracts the request body, answers the Slack `url_verification`
  handshake itself when a truthy `challenge` is present, and delegates
  every other request to the external collaborator
  `slack_handler.handle(event, context)` (the Bolt framework).

* `handle_member_joined_channel(event, client, logger)` (src/app.py
  lines 29-58): posts a welcome message when a member joins a channel,
  suppressing the message when the joiner is the bot itself
  (`client.auth_test().get("user_id") == user_id`), and catching any
  error raised by `client.chat_postMessage`.

Modelling conventions:

* Python JSON values are the inductive `Json`; Python truthiness is
  `Json.truthy`; `dict.get(k)` on a parsed value is `Json.pyGet`, which
  raises `AttributeError` when the value is not a dict, mirroring
  `body.get('type')` on a non-object.
* `json.loads` and `slack_handler.handle` are external calls, passed in
  as function parameters: `parse` may return any parsed value or raise
  any exception, and `slack_handler_handle` receives the event and
  context objects unchanged, exactly as in the source.
* Exceptions are the error side of `Except PyExc`; a `try`/`except`
  block is a `match` on that result.
* Logging (`logger.info` / `logger.warning` / `logger.error`) has no
  observable effect on the modelled state and is omitted.
* Whether `slack_handler.handle` was invoked is recorded as the `Bool`
  component of `handler`'s result; the calls to
  `client.chat_postMessage` are recorded as a list of
  (channel, text) pairs returned next to the handler's outcome.
-/

namespace SlackApp

/-- A Python value as produced by `json.loads`: null, booleans, numbers
(modelled as integers), strings, lists and dicts. -/
inductive Json where
  | null : Json
  | bool : Bool → Json
  | num : Int → Json
  | str : String → Json
  | arr : List Json → Json
  | obj : List (String × Json) → Json

/-- Python exceptions relevant to src/app.py: `json.JSONDecodeError`
raised by `json.loads`, `AttributeError` raised by `.get` on a
non-dict, Slack API errors raised by client calls, and any other
exception (caught by the bare `except Exception` branch). -/
inductive PyExc where
  | jsonDecodeError : PyExc
  | attributeError : PyExc
  | apiError : String → PyExc
  | other : String → PyExc
deriving DecidableEq

/-- Python truthiness of a JSON value: `None`, `False`, `0`, `""`, `[]`
and `\x7b\x7d` are falsy, everything else truthy. Used by
`if challenge:` in src/app.py line 85. -/
def Json.truthy : Json → Bool
  | .null => false
  | .bool b => b
  | .num n => n != 0
  | .str s => s != ""
  | .arr xs => !xs.isEmpty
  | .obj kvs => !kvs.isEmpty

/-- Python `dict.get(k)` on a dict given as an association list: the
first value bound to `k`, or `None` when the key is absent. -/
def dictGet (kvs : List (String × Json)) (k : String) : Json :=
  (kvs.lookup k).getD Json.null

/-- Python attribute access `.get(k)` on a parsed JSON value: succeeds
on a dict, raises `AttributeError` on any other value (a list, string,
number, boolean or null has no `.get` method). -/
def Json.pyGet : Json → String → Except PyExc Json
  | .obj kvs, k => .ok (dictGet kvs k)
  | _, _ => .error PyExc.attributeError

/-- Python `==` between a JSON value and a string: true exactly when
the value is that string (comparison of a non-string value with a
string is `False` in Python). -/
def Json.eqStr : Json → String → Bool
  | .str s, t => s == t
  | _, _ => false

/-- True exactly when the JSON value is a dict. -/
def Json.isObj : Json → Bool
  | .obj _ => true
  | _ => false

/-- Python truthiness of `event.get('body')`: `None` (absent body) and
the empty string are falsy; used by `if not body_str:` in src/app.py
line 74. -/
def optStrTruthy : Option String → Bool
  | none => false
  | some s => s != ""

/-- The Vercel/Lambda event object as used by `handler`: only the
`body` field is read (`event.get('body')`, absent modelled as `none`);
the remaining fields (headers, method, path) are carried opaquely so
that forwarding the event unchanged is observable. -/
structure LambdaEvent where
  body : Option String
  headers : List (String × String)

/-- The dict returned by the handshake branch of `handler` (src/app.py
lines 87-91): statusCode, headers, and the challenge value as body. -/
structure HandshakeResponse where
  statusCode : Nat
  headers : List (String × String)
  body : Json

/-- The outcome of `handler`: either the handshake response built by
the front door itself, or the response of `slack_handler.handle`. -/
inductive HandlerResult (δ : Type) where
  | handshake : HandshakeResponse → HandlerResult δ
  | delegated : δ → HandlerResult δ

/-- The try-block of `handler` (src/app.py lines 77-101, before the
except clauses): parse the body, inspect `type`, and on a truthy
challenge build the handshake response. `.ok (some r)` is the early
return of lines 87-91; `.ok none` is falling out of the try block;
`.error e` is an exception reaching an except clause. The literal 200
is `HTTPStatus.OK.value`. -/
def preprocess (parse : String → Except PyExc Json) (body_str : String) :
    Except PyExc (Option HandshakeResponse) :=
  match parse body_str with
  | .error e => .error e
  | .ok body =>
    match body.pyGet "type" with
    | .error e => .error e
    | .ok ty =>
      if ty.eqStr "url_verification" then
        match body.pyGet "challenge" with
        | .error e => .error e
        | .ok challenge =>
          if challenge.truthy then
            .ok (some { statusCode := 200,
                        headers := [("Content-Type", "text/plain")],
                        body := challenge })
          else
            .ok none
      else
        .ok none

/-- The entry point `handler(event, context)` of src/app.py lines
65-105. `parse` stands for `json.loads`, `slack_handler_handle` for
the external collaborator `slack_handler.handle`; `δ` is its response
type and `κ` the opaque Lambda context type. The `Bool` component
records whether `slack_handler.handle` was invoked. Both except
clauses (lines 93-101) fall through to the delegation of line 105,
exactly as `pass` does in the source. -/
def handler {δ κ : Type} (parse : String → Except PyExc Json)
    (slack_handler_handle : LambdaEvent → κ → δ)
    (event : LambdaEvent) (context : κ) : HandlerResult δ × Bool :=
  let body_str := event.body
  if !optStrTruthy body_str then
    (.delegated (slack_handler_handle event context), true)
  else
    match preprocess parse (body_str.getD "") with
    | .ok (some resp) => (.handshake resp, false)
    | .ok none => (.delegated (slack_handler_handle event context), true)
    | .error _ => (.delegated (slack_handler_handle event context), true)

/-- The fields of a `member_joined_channel` event read by the welcome
handler: `event["user"]` and `event["channel"]` (src/app.py lines
33-34). -/
structure MemberJoinedEvent where
  user : String
  channel : String

/-- The welcome message of src/app.py lines 43-48, with the joining
user id interpolated into the f-string. -/
def welcome_message (user_id : String) : String :=
  "Welcome! :tada: <@" ++ user_id ++ ">, thanks for joining this channel!\n\n" ++
  "In this channel, we primarily share *the latest project updates and technical discussions*.\n" ++
  "Feel free to introduce yourself in the #general channel!\n" ++
  "If you have any questions, don't hesitate to ask! :bulb:"

/-- The event callback `handle_member_joined_channel(event, client,
logger)` of src/app.py lines 29-58. `auth_test` is the result of
`client.auth_test()` (its response data as a dict, or a raised
exception); `chat_postMessage` is `client.chat_postMessage(channel=...,
text=...)`. The result pairs the handler's own outcome (an uncaught
exception propagates as `.error`) with the list of chat_postMessage
calls made, in order, as (channel, text). The try/except of lines
50-58 catches any exception from the post call and returns normally. -/
def handle_member_joined_channel
    (auth_test : Except PyExc (List (String × Json)))
    (chat_postMessage : String → String → Except PyExc Json)
    (event : MemberJoinedEvent) :
    Except PyExc Unit × List (String × String) :=
  let user_id := event.user
  let channel_id := event.channel
  match auth_test with
  | .error e => (.error e, [])
  | .ok resp =>
    if (dictGet resp "user_id").eqStr user_id then
      (.ok (), [])
    else
      let msg := welcome_message user_id
      match chat_postMessage channel_id msg with
      | .ok _ => (.ok (), [(channel_id, msg)])
      | .error _ => (.ok (), [(channel_id, msg)])

/-! Helper lemmas about `preprocess` and `handler`. -/

/-- When `json.loads` raises, the try-block of `handler` raises that
exception. -/
theorem preprocess_error_of_parse (parse : String → Except PyExc Json)
    (s : String) (e : PyExc) (hparse : parse s = .error e) :
    preprocess parse s = .error e := by
  simp [preprocess, hparse]

/-- When the body parses to a dict with `type = "url_verification"` and
a truthy challenge, the try-block returns the handshake response. -/
theorem preprocess_handshake (parse : String → Except PyExc Json)
    (s : String) (j c : Json) (hparse : parse s = .ok j)
    (hty : j.pyGet "type" = .ok (Json.str "url_verification"))
    (hch : j.pyGet "challenge" = .ok c) (hc : c.truthy = true) :
    preprocess parse s = .ok (some
      { statusCode := 200,
        headers := [("Content-Type", "text/plain")],
        body := c }) := by
  simp [preprocess, hparse, hty, hch, Json.eqStr, hc]

/-- When the body parses to a dict with `type = "url_verification"` but
a falsy challenge, the try-block falls through without a response. -/
theorem preprocess_none_of_falsy_challenge (parse : String → Except PyExc Json)
    (s : String) (j c : Json) (hparse : parse s = .ok j)
    (hty : j.pyGet "type" = .ok (Json.str "url_verification"))
    (hch : j.pyGet "challenge" = .ok c) (hc : c.truthy = false) :
    preprocess parse s = .ok none := by
  simp [preprocess, hparse, hty, hch, Json.eqStr, hc]

/-- When the body parses to a non-dict value, inspecting the `type`
field raises `AttributeError` inside the try-block. -/
theorem preprocess_attrError_of_not_obj (parse : String → Except PyExc Json)
    (s : String) (j : Json) (hparse : parse s = .ok j) (hj : j.isObj = false) :
    preprocess parse s = .error PyExc.attributeError := by
  cases j <;> simp_all [preprocess, Json.pyGet, Json.isObj]

/-- With a truthy body string, `handler` returns the response the
try-block produced, without delegating. -/
theorem handler_handshake_of {δ κ : Type} (parse : String → Except PyExc Json)
    (slack : LambdaEvent → κ → δ) (ev : LambdaEvent) (ctx : κ)
    (s : String) (r : HandshakeResponse)
    (hbody : ev.body = some s) (hs : s ≠ "")
    (hpre : preprocess parse s = .ok (some r)) :
    handler parse slack ev ctx = (.handshake r, false) := by
  simp [handler, hbody, optStrTruthy, bne_iff_ne, hs, hpre]

/-- With a truthy body string whose try-block falls through, `handler`
delegates to `slack_handler.handle` on the unchanged event. -/
theorem handler_delegates_of_none {δ κ : Type} (parse : String → Except PyExc Json)
    (slack : LambdaEvent → κ → δ) (ev : LambdaEvent) (ctx : κ) (s : String)
    (hbody : ev.body = some s) (hs : s ≠ "")
    (hpre : preprocess parse s = .ok none) :
    handler parse slack ev ctx = (.delegated (slack ev ctx), true) := by
  simp [handler, hbody, optStrTruthy, bne_iff_ne, hs, hpre]

/-- With a truthy body string whose try-block raises, `handler` catches
the exception and delegates to `slack_handler.handle` on the unchanged
event. -/
theorem handler_delegates_of_error {δ κ : Type} (parse : String → Except PyExc Json)
    (slack : LambdaEvent → κ → δ) (ev : LambdaEvent) (ctx : κ) (s : String)
    (e : PyExc) (hbody : ev.body = some s) (hs : s ≠ "")
    (hpre : preprocess parse s = .error e) :
    handler parse slack ev ctx = (.delegated (slack ev ctx), true) := by
  simp [handler, hbody, optStrTruthy, bne_iff_ne, hs, hpre]

/-- The welcome message contains the literal mention of the joining
user, as the decomposition around the substring shows. -/
theorem welcome_message_mention (u : String) :
    ∃ a b, welcome_message u = a ++ ("<@" ++ u ++ ">") ++ b := by
  refine ⟨"Welcome! :tada: ",
    ", thanks for joining this channel!\n\n" ++
    "In this channel, we primarily share *the latest project updates and technical discussions*.\n" ++
    "Feel free to introduce yourself in the #general channel!\n" ++
    "If you have any questions, don't hesitate to ask! :bulb:", ?_⟩
  have h1 : ("Welcome! :tada: <@" : String) = "Welcome! :tada: " ++ "<@" := by decide
  have h2 : (">, thanks for joining this channel!\n\n" : String) =
      ">" ++ ", thanks for joining this channel!\n\n" := by decide
  unfold welcome_message
  rw [h1, h2]
  simp only [String.append_assoc]

/-! The claims. -/

/-- C1: for every request whose body parses as a JSON object with
`type = "url_verification"` and a non-empty challenge string, `handler`
returns immediately status 200, header Content-Type: text/plain, and
body exactly the challenge value as received, and `slack_handler.handle`
is never invoked on that request. -/
theorem handler_url_verification_echoes_challenge {δ κ : Type}
    (parse : String → Except PyExc Json) (slack : LambdaEvent → κ → δ)
    (ev : LambdaEvent) (ctx : κ) (s : String) (j : Json) (c : String)
    (hbody : ev.body = some s) (hs : s ≠ "") (hparse : parse s = .ok j)
    (hty : j.pyGet "type" = .ok (Json.str "url_verification"))
    (hch : j.pyGet "challenge" = .ok (Json.str c)) (hc : c ≠ "") :
    handler parse slack ev ctx = (.handshake
      { statusCode := 200,
        headers := [("Content-Type", "text/plain")],
        body := Json.str c }, false) :=
  handler_handshake_of parse slack ev ctx s _ hbody hs
    (preprocess_handshake parse s j (Json.str c) hparse hty hch
      (by simp [Json.truthy, bne_iff_ne, hc]))

/-- Witness for C1: a concrete handshake request with challenge
"abc123" is echoed with status 200 and text/plain, and the delegate
flag stays false. -/
theorem handler_url_verification_echoes_challenge_witness :
    handler (fun _ => Except.ok (Json.obj
        [("type", Json.str "url_verification"), ("challenge", Json.str "abc123")]))
      (fun _ _ => (0 : Nat)) { body := some "payload", headers := [] } () =
      (.handshake
        { statusCode := 200,
          headers := [("Content-Type", "text/plain")],
          body := Json.str "abc123" }, false) :=
  handler_url_verification_echoes_challenge _ _ _ ()
    "payload"
    (Json.obj [("type", Json.str "url_verification"), ("challenge", Json.str "abc123")])
    "abc123" rfl (by decide) rfl rfl rfl (by decide)

/-- C2: for every request whose body parses as a JSON object with
`type = "url_verification"` but whose challenge field is absent (so
`dict.get` yields None) or the empty string, `handler` forwards the
request to `slack_handler.handle` and returns that delegated
response. -/
theorem handler_delegates_on_missing_or_empty_challenge {δ κ : Type}
    (parse : String → Except PyExc Json) (slack : LambdaEvent → κ → δ)
    (ev : LambdaEvent) (ctx : κ) (s : String) (j : Json)
    (hbody : ev.body = some s) (hs : s ≠ "") (hparse : parse s = .ok j)
    (hty : j.pyGet "type" = .ok (Json.str "url_verification"))
    (hch : j.pyGet "challenge" = .ok Json.null ∨
      j.pyGet "challenge" = .ok (Json.str "")) :
    handler parse slack ev ctx = (.delegated (slack ev ctx), true) := by
  rcases hch with hch | hch
  · exact handler_delegates_of_none parse slack ev ctx s hbody hs
      (preprocess_none_of_falsy_challenge parse s j Json.null hparse hty hch rfl)
  · exact handler_delegates_of_none parse slack ev ctx s hbody hs
      (preprocess_none_of_falsy_challenge parse s j (Json.str "") hparse hty hch rfl)

/-- Witness for C2: a url_verification payload without a challenge key
is delegated to the external collaborator. -/
theorem handler_delegates_on_missing_or_empty_challenge_witness :
    handler (fun _ => Except.ok (Json.obj [("type", Json.str "url_verification")]))
      (fun _ _ => (7 : Nat)) { body := some "payload", headers := [] } () =
      (.delegated 7, true) :=
  handler_delegates_on_missing_or_empty_challenge _ _ _ ()
    "payload" (Json.obj [("type", Json.str "url_verification")])
    rfl (by decide) rfl rfl (Or.inl rfl)

/-- C3: for every request with no body (absent, None, or the empty
string), `handler` returns exactly the result of
`slack_handler.handle` applied to the unchanged event and context. -/
theorem handler_delegates_on_empty_body {δ κ : Type}
    (parse : String → Except PyExc Json) (slack : LambdaEvent → κ → δ)
    (ev : LambdaEvent) (ctx : κ)
    (hbody : ev.body = none ∨ ev.body = some "") :
    handler parse slack ev ctx = (.delegated (slack ev ctx), true) := by
  rcases hbody with hbody | hbody <;> simp [handler, hbody, optStrTruthy]

/-- Witness for C3: a bodiless GET-style event is passed through to the
external collaborator unchanged. -/
theorem handler_delegates_on_empty_body_witness :
    handler (fun _ => Except.ok Json.null)
      (fun e _ => e.headers) { body := none, headers := [("Host", "x")] } () =
      (.delegated [("Host", "x")], true) :=
  handler_delegates_on_empty_body _ _ _ () (Or.inl rfl)

/-- C4: for every request whose non-empty body is not parseable as JSON
(`json.loads` raises JSONDecodeError), `handler` does not raise: it
forwards the request to `slack_handler.handle` and returns the
delegated response. -/
theorem handler_delegates_on_json_decode_error {δ κ : Type}
    (parse : String → Except PyExc Json) (slack : LambdaEvent → κ → δ)
    (ev : LambdaEvent) (ctx : κ) (s : String)
    (hbody : ev.body = some s) (hs : s ≠ "")
    (hparse : parse s = .error PyExc.jsonDecodeError) :
    handler parse slack ev ctx = (.delegated (slack ev ctx), true) :=
  handler_delegates_of_error parse slack ev ctx s PyExc.jsonDecodeError hbody hs
    (preprocess_error_of_parse parse s PyExc.jsonDecodeError hparse)

/-- Witness for C4: a body that fails JSON decoding is delegated. -/
theorem handler_delegates_on_json_decode_error_witness :
    handler (fun _ => Except.error PyExc.jsonDecodeError)
      (fun _ _ => (3 : Nat)) { body := some "not json", headers := [] } () =
      (.delegated 3, true) :=
  handler_delegates_on_json_decode_error _ _ _ () "not json" rfl (by decide) rfl

/-- C5: for every request, any exception raised during the handler's
own pre-processing (the try-block: body parsing and field inspection)
is caught rather than crashing `handler`: execution falls through to
forwarding, and the delegated response is returned. -/
theorem handler_delegates_on_preprocess_error {δ κ : Type}
    (parse : String → Except PyExc Json) (slack : LambdaEvent → κ → δ)
    (ev : LambdaEvent) (ctx : κ) (s : String) (e : PyExc)
    (hbody : ev.body = some s) (hs : s ≠ "")
    (hpre : preprocess parse s = .error e) :
    handler parse slack ev ctx = (.delegated (slack ev ctx), true) :=
  handler_delegates_of_error parse slack ev ctx s e hbody hs hpre

/-- Witness for C5: an arbitrary unexpected exception raised while
parsing is caught and the request is delegated. -/
theorem handler_delegates_on_preprocess_error_witness :
    handler (fun _ => Except.error (PyExc.other "boom"))
      (fun _ _ => (5 : Nat)) { body := some "payload", headers := [] } () =
      (.delegated 5, true) :=
  handler_delegates_on_preprocess_error _ _ _ () "payload"
    (PyExc.other "boom") rfl (by decide) rfl

/-- C6: for every channel-join event whose joining user id equals the
bot's own id as returned by `auth_test`, the welcome handler does
nothing: no `chat_postMessage` call occurs. -/
theorem welcome_skips_self_join (resp : List (String × Json))
    (chat : String → String → Except PyExc Json) (ev : MemberJoinedEvent)
    (hself : (dictGet resp "user_id").eqStr ev.user = true) :
    handle_member_joined_channel (.ok resp) chat ev = (.ok (), []) := by
  simp [handle_member_joined_channel, hself]

/-- Witness for C6: when the bot (user id UBOT) joins, no message is
posted. -/
theorem welcome_skips_self_join_witness :
    handle_member_joined_channel (.ok [("user_id", Json.str "UBOT")])
      (fun _ _ => Except.ok Json.null) { user := "UBOT", channel := "C1" } =
      (.ok (), []) :=
  welcome_skips_self_join [("user_id", Json.str "UBOT")] _ _ rfl

/-- C7: for every channel-join event whose joining user id differs from
the bot's own id, exactly one `chat_postMessage` call occurs, with
channel equal to the event's channel and text containing the literal
mention of the joining user; and any error raised by that call is
caught, so the handler returns normally for every possible post
outcome. -/
theorem welcome_posts_once_for_other_user (resp : List (String × Json))
    (chat : String → String → Except PyExc Json) (ev : MemberJoinedEvent)
    (hdiff : (dictGet resp "user_id").eqStr ev.user = false) :
    handle_member_joined_channel (.ok resp) chat ev =
      (.ok (), [(ev.channel, welcome_message ev.user)]) ∧
    ∃ a b, welcome_message ev.user = a ++ ("<@" ++ ev.user ++ ">") ++ b := by
  refine ⟨?_, welcome_message_mention ev.user⟩
  cases hpost : chat ev.channel (welcome_message ev.user) <;>
    simp [handle_member_joined_channel, hdiff, hpost]

/-- Witness for C7: a join by U2 while the bot is UBOT posts exactly
one message to the event's channel, and a failing post call does not
make the handler raise. -/
theorem welcome_posts_once_for_other_user_witness :
    handle_member_joined_channel (.ok [("user_id", Json.str "UBOT")])
      (fun _ _ => Except.error (PyExc.apiError "rate_limited"))
      { user := "U2", channel := "C9" } =
      (.ok (), [("C9", welcome_message "U2")]) ∧
    ∃ a b, welcome_message "U2" = a ++ ("<@" ++ "U2" ++ ">") ++ b :=
  welcome_posts_once_for_other_user [("user_id", Json.str "UBOT")] _
    { user := "U2", channel := "C9" } rfl

/-- C8: when `client.auth_test()` itself raises, the exception is not
caught: it propagates out of `handle_member_joined_channel`, and no
`chat_postMessage` call occurs; only errors of the post call are
swallowed. -/
theorem welcome_propagates_auth_test_error (e : PyExc)
    (chat : String → String → Except PyExc Json) (ev : MemberJoinedEvent) :
    handle_member_joined_channel (.error e) chat ev = (.error e, []) :=
  rfl

/-- C9: for every request whose body parses as a JSON object with
`type = "url_verification"` and whose challenge holds any truthy JSON
value, not necessarily a string, `handler` still returns that value as
the 200 text/plain body without invoking `slack_handler.handle`: no
check that the challenge is a string is performed. -/
theorem handler_echoes_truthy_nonstring_challenge {δ κ : Type}
    (parse : String → Except PyExc Json) (slack : LambdaEvent → κ → δ)
    (ev : LambdaEvent) (ctx : κ) (s : String) (j c : Json)
    (hbody : ev.body = some s) (hs : s ≠ "") (hparse : parse s = .ok j)
    (hty : j.pyGet "type" = .ok (Json.str "url_verification"))
    (hch : j.pyGet "challenge" = .ok c) (hc : c.truthy = true) :
    handler parse slack ev ctx = (.handshake
      { statusCode := 200,
        headers := [("Content-Type", "text/plain")],
        body := c }, false) :=
  handler_handshake_of parse slack ev ctx s _ hbody hs
    (preprocess_handshake parse s j c hparse hty hch hc)

/-- Witness for C9: a numeric challenge value 42 is echoed as the
response body and the external collaborator is not invoked. -/
theorem handler_echoes_truthy_nonstring_challenge_witness :
    handler (fun _ => Except.ok (Json.obj
        [("type", Json.str "url_verification"), ("challenge", Json.num 42)]))
      (fun _ _ => (0 : Nat)) { body := some "payload", headers := [] } () =
      (.handshake
        { statusCode := 200,
          headers := [("Content-Type", "text/plain")],
          body := Json.num 42 }, false) :=
  handler_echoes_truthy_nonstring_challenge _ _ _ ()
    "payload"
    (Json.obj [("type", Json.str "url_verification"), ("challenge", Json.num 42)])
    (Json.num 42) rfl (by decide) rfl rfl rfl rfl

/-- C10: for every request whose body parses as JSON but not as a JSON
object (a list, string, number, boolean or null), `handler` does not
crash: inspecting the `type` field raises AttributeError inside the
try-block, the generic except branch catches it, and the request is
forwarded to `slack_handler.handle`. -/
theorem handler_survives_non_object_json {δ κ : Type}
    (parse : String → Except PyExc Json) (slack : LambdaEvent → κ → δ)
    (ev : LambdaEvent) (ctx : κ) (s : String) (j : Json)
    (hbody : ev.body = some s) (hs : s ≠ "")
    (hparse : parse s = .ok j) (hj : j.isObj = false) :
    preprocess parse s = .error PyExc.attributeError ∧
    handler parse slack ev ctx = (.delegated (slack ev ctx), true) := by
  have hpre := preprocess_attrError_of_not_obj parse s j hparse hj
  exact ⟨hpre,
    handler_delegates_of_error parse slack ev ctx s PyExc.attributeError hbody hs hpre⟩

/-- Witness for C10: a body parsing to the JSON list [1] raises
AttributeError in pre-processing and the request is delegated. -/
theorem handler_survives_non_object_json_witness :
    preprocess (fun _ => Except.ok (Json.arr [Json.num 1])) "payload" =
      .error PyExc.attributeError ∧
    handler (fun _ => Except.ok (Json.arr [Json.num 1]))
      (fun _ _ => (9 : Nat)) { body := some "payload", headers := [] } () =
      (.delegated 9, true) :=
  handler_survives_non_object_json _ _ _ () "payload"
    (Json.arr [Json.num 1]) rfl (by decide) rfl rfl

end SlackApp
